import Mathlib

/-!
Shallow embedding of the metrics / snapshot service in `backend/app.py`.

Numbers are modelled as rationals (`ℚ`); the Python builtin `round(x, n)`
(round-half-to-even) is modelled by `roundHalfEven`.  Strings are
Lean `String`s; Python `str.lower` is `strLower` (ASCII case folding, which
agrees with Python on all inputs occurring here).  The two JSON files
`users.json` and `snapshots.json` are modelled as insertion-ordered
association lists (Python dicts preserve insertion order); `dict.get`,
`dict.__contains__` and `dict.__setitem__` are `dictGet?`, `dictContains`
and `dictSet`.  Endpoint handlers become state-passing functions returning
`Except ApiError` (an `HTTPException` or an uncaught Python exception)
paired with the resulting store state.
-/

/-- Floor-based round-half-to-even, the semantics of the Python builtin
`round` on exact values: nearest integer, ties to the even neighbour. -/
def roundHalfEven (q : ℚ) : ℤ :=
  let f := ⌊q⌋
  if q - f < 1/2 then f
  else if 1/2 < q - f then f + 1
  else if f % 2 = 0 then f else f + 1

/-- Python `round(x, 0)` (the result stays a number, as in Python where it
stays a float). -/
def roundQ0 (q : ℚ) : ℚ := (roundHalfEven q : ℚ)

/-- Python `round(x, 2)`. -/
def round2 (q : ℚ) : ℚ := (roundHalfEven (q * 100) : ℚ) / 100

/-- Python `str.lower` (ASCII case folding). -/
def strLower (s : String) : String := ⟨s.data.map Char.toLower⟩

/-- Translation of `calculate_bmi` (app.py lines 43-46): `None` when the height in metres
is non-positive, else weight over squared height, rounded to 2 decimals. -/
def calculate_bmi (weight_kg height_cm : ℚ) : Option ℚ :=
  let h_m := height_cm / 100
  if h_m ≤ 0 then none
  else some (round2 (weight_kg / (h_m * h_m)))

/-- Translation of `calculate_bmr` (app.py lines 48-54): Mifflin-St Jeor. -/
def calculate_bmr (weight_kg height_cm : ℚ) (age : ℤ) (sex : String) : ℚ :=
  let base := 10 * weight_kg + 6.25 * height_cm - 5 * (age : ℚ)
  if strLower sex = "male" then roundQ0 (base + 5)
  else roundQ0 (base - 161)

/-- Translation of `ACTIVITY_FACTORS` (app.py lines 56-62). -/
def ACTIVITY_FACTORS : List (String × ℚ) :=
  [("sedentary", 1.2), ("light", 1.375), ("moderate", 1.55),
   ("active", 1.725), ("very_active", 1.9)]

/-- Python `dict.get(k)` / `dict[k]` lookup on an association list. -/
def dictGet? {α : Type} (l : List (String × α)) (k : String) : Option α :=
  (l.find? (fun p => p.1 == k)).map (fun p => p.2)

/-- Python `k in dict`. -/
def dictContains {α : Type} (l : List (String × α)) (k : String) : Bool :=
  l.any (fun p => p.1 == k)

/-- Python `dict[k] = v`: overwrite in place if the key exists, else append
(dicts preserve insertion order). -/
def dictSet {α : Type} (l : List (String × α)) (k : String) (v : α) :
    List (String × α) :=
  if l.any (fun p => p.1 == k) then
    l.map (fun p => if p.1 == k then (k, v) else p)
  else l ++ [(k, v)]

/-- Translation of `calculate_tdee` (app.py lines 64-66): `ACTIVITY_FACTORS.get(level, 1.2)`. -/
def calculate_tdee (bmr : ℚ) (activity_level : String) : ℚ :=
  let factor := (dictGet? ACTIVITY_FACTORS activity_level).getD 1.2
  roundQ0 (bmr * factor)

-- Helper lemmas to evaluate `roundHalfEven` at concrete rationals.

theorem roundHalfEven_eq_floor {q : ℚ} {f : ℤ} (h1 : ⌊q⌋ = f)
    (h2 : q - f < 1/2) : roundHalfEven q = f := by
  unfold roundHalfEven
  rw [h1, if_pos h2]

theorem roundHalfEven_eq_ceil {q : ℚ} {f : ℤ} (h1 : ⌊q⌋ = f)
    (h2 : 1/2 < q - f) : roundHalfEven q = f + 1 := by
  unfold roundHalfEven
  rw [h1, if_neg (by linarith), if_pos h2]

theorem roundQ0_intCast (z : ℤ) : roundQ0 (z : ℚ) = z := by
  unfold roundQ0
  rw [roundHalfEven_eq_floor (Int.floor_intCast z) (by norm_num)]

-- Dates.  `datetime.strptime(dob_str, "%Y-%m-%d").date()` accepts exactly a
-- 4-digit year, a 1-2 digit month in 1..12 and a 1-2 digit day valid for
-- that month and year, separated by single dashes, and rejects year 0.

structure Date where
  year : ℕ
  month : ℕ
  day : ℕ
deriving DecidableEq, Repr

def isLeapYear (y : ℕ) : Bool :=
  (y % 4 == 0 && y % 100 != 0) || y % 400 == 0

def daysInMonth (y m : ℕ) : ℕ :=
  if m = 2 then (if isLeapYear y then 29 else 28)
  else if m = 4 ∨ m = 6 ∨ m = 9 ∨ m = 11 then 30
  else 31

def digitsVal (l : List Char) : ℕ :=
  l.foldl (fun acc c => 10 * acc + (c.toNat - 48)) 0

/-- Translation of `datetime.strptime(s, "%Y-%m-%d").date()`; `none` models the raised
`ValueError`. -/
def parseDate (s : String) : Option Date :=
  match s.data.splitOn '-' with
  | [ys, ms, ds] =>
    if ys.length = 4 ∧ ys.all Char.isDigit = true ∧
       1 ≤ ms.length ∧ ms.length ≤ 2 ∧ ms.all Char.isDigit = true ∧
       1 ≤ ds.length ∧ ds.length ≤ 2 ∧ ds.all Char.isDigit = true then
      let y := digitsVal ys
      let m := digitsVal ms
      let d := digitsVal ds
      if 1 ≤ y ∧ 1 ≤ m ∧ m ≤ 12 ∧ 1 ≤ d ∧ d ≤ daysInMonth y m then
        some ⟨y, m, d⟩
      else none
    else none
  | _ => none

/-- Translation of `age_from_dob` (app.py lines 38-41), with `date.today()` passed in
explicitly; `none` models the `ValueError` raised by `strptime`.  The
Python tuple comparison `(today.month, today.day) < (dob.month, dob.day)`
is lexicographic. -/
def age_from_dob (dob_str : String) (today : Date) : Option ℤ :=
  (parseDate dob_str).map (fun dob =>
    (today.year : ℤ) - dob.year -
      (if today.month < dob.month ∨
          (today.month = dob.month ∧ today.day < dob.day) then 1 else 0))

-- The two JSON stores and the request/record shapes.

/-- Translation of the `UserCreate` request model (app.py lines 69-76). -/
structure UserCreate where
  name : String
  dob : String
  sex : String
  height_cm : ℚ
  weight_kg : ℚ
  activity_level : String
  user_id : String
deriving DecidableEq, Repr

/-- A profile record as persisted in `users.json`: the `UserCreate` fields
plus `created_at`.  `create_snapshot` reads `height_cm` and
`activity_level` back with `dict.get`, so those two fields are modelled as
optional JSON-object entries; `dob` and `sex` are read with `dict[...]`. -/
structure StoredUser where
  name : String
  dob : String
  sex : String
  height_cm : Option ℚ
  weight_kg : ℚ
  activity_level : Option String
  created_at : String
deriving DecidableEq, Repr

/-- Translation of the `SnapshotCreate` request model (app.py lines 81-88): every field but `weight_kg`
defaults to `None`. -/
structure SnapshotCreate where
  weight_kg : ℚ
  height_cm : Option ℚ := none
  activity_level : Option String := none
  sleep_hours : Option ℚ := none
  calories_intake : Option ℚ := none
  notes : Option String := none
  timestamp : Option String := none
deriving DecidableEq, Repr

/-- A snapshot record as persisted in `snapshots.json` (app.py lines
156-168); the returned record is this plus the generated `id`.  `bmi` is
optional because `calculate_bmi` returns `None` for non-positive height. -/
structure StoredSnap where
  user_id : String
  timestamp : String
  weight_kg : ℚ
  height_cm : ℚ
  activity_level : String
  sleep_hours : Option ℚ
  calories_intake : Option ℚ
  notes : Option String
  bmi : Option ℚ
  bmr : ℚ
  tdee : ℚ
deriving DecidableEq, Repr

/-- The two JSON files. -/
structure DB where
  users : List (String × StoredUser)
  snaps : List (String × StoredSnap)
deriving DecidableEq, Repr

/-- How an endpoint call can fail: the two raised `HTTPException`s, plus
the two uncaught Python exceptions reachable in `create_snapshot`. -/
inductive ApiError where
  | conflict
  | notFound
  | valueError
  | typeError
deriving DecidableEq, Repr

/-- Translation of `create_user` (app.py lines 106-121): reject an existing `user_id`
with 400, else persist the profile with `created_at` stamped and return
`{"id": uid, **u.dict()}`. -/
def create_user (db : DB) (u : UserCreate) (now : String) :
    Except ApiError (String × UserCreate) × DB :=
  if dictContains db.users u.user_id then (.error .conflict, db)
  else
    let stored : StoredUser :=
      { name := u.name, dob := u.dob, sex := u.sex,
        height_cm := some u.height_cm, weight_kg := u.weight_kg,
        activity_level := some u.activity_level, created_at := now }
    (.ok (u.user_id, u), { db with users := dictSet db.users u.user_id stored })

/-- Resolution of app.py line 139:
`height = s.height_cm if s.height_cm is not None else user.get("height_cm")`. -/
def resolvedHeight? (s : SnapshotCreate) (user : StoredUser) : Option ℚ :=
  match s.height_cm with
  | some h => some h
  | none => user.height_cm

/-- Resolution of app.py line 140 (Python truthiness: `None` and `""` both
fall through):
`activity_level = s.activity_level if s.activity_level else user.get("activity_level", "sedentary")`. -/
def resolvedActivity (s : SnapshotCreate) (user : StoredUser) : String :=
  match s.activity_level with
  | some a => if a = "" then user.activity_level.getD "sedentary" else a
  | none => user.activity_level.getD "sedentary"

/-- Resolution of app.py line 151 (Python truthiness again):
`ts = s.timestamp or datetime.utcnow().isoformat()`. -/
def resolvedTs (s : SnapshotCreate) (nowIso : String) : String :=
  match s.timestamp with
  | some t => if t = "" then nowIso else t
  | none => nowIso

/-- The enriched record built and persisted by `create_snapshot` (app.py
lines 145-168), given the already-resolved `age` and `height`. -/
def mkSnap (user_id : String) (s : SnapshotCreate) (user : StoredUser)
    (age : ℤ) (height : ℚ) (nowIso : String) : StoredSnap :=
  let weight := s.weight_kg
  let activity_level := resolvedActivity s user
  let bmr := calculate_bmr weight height age user.sex
  { user_id := user_id, timestamp := resolvedTs s nowIso, weight_kg := weight,
    height_cm := height, activity_level := activity_level,
    sleep_hours := s.sleep_hours, calories_intake := s.calories_intake,
    notes := s.notes, bmi := calculate_bmi weight height, bmr := bmr,
    tdee := calculate_tdee bmr activity_level }

/-- Translation of `create_snapshot` (app.py lines 130-184).  Here `today`
is `date.today()`, `nowIso` is `datetime.utcnow().isoformat()` and `sid` is
`str(uuid4())`, all passed in explicitly.  A `None` resolved height reaches
`calculate_bmi` where `height_cm / 100.0` raises `TypeError`; a malformed
`dob` makes `strptime` raise `ValueError`.  Both happen before the
`snapshots.json` write, in this order. -/
def create_snapshot (db : DB) (user_id : String) (s : SnapshotCreate)
    (today : Date) (nowIso : String) (sid : String) :
    Except ApiError (String × StoredSnap) × DB :=
  match dictGet? db.users user_id with
  | none => (.error .notFound, db)
  | some user =>
    match age_from_dob user.dob today with
    | none => (.error .valueError, db)
    | some age =>
      match resolvedHeight? s user with
      | none => (.error .typeError, db)
      | some height =>
        let snap := mkSnap user_id s user age height nowIso
        (.ok (sid, snap), { db with snaps := dictSet db.snaps sid snap })

/-- The comparison key of `user_snaps.sort(key=lambda x: x["timestamp"])`. -/
def tsLe (a b : String × StoredSnap) : Bool :=
  decide (a.2.timestamp ≤ b.2.timestamp)

/-- Translation of `list_snapshots` (app.py lines 186-199): 404 for an unknown user, else
the snapshots with matching `user_id` in file order, stably sorted by
timestamp. -/
def list_snapshots (db : DB) (user_id : String) :
    Except ApiError (List (String × StoredSnap)) :=
  if dictContains db.users user_id then
    .ok (((db.snaps.filter (fun p => p.2.user_id == user_id))).mergeSort tsLe)
  else .error .notFound

-- Generic evaluation helpers shared by several claims.

theorem roundQ0_eq_floor {q : ℚ} {f : ℤ} (h1 : ⌊q⌋ = f)
    (h2 : q - f < 1/2) : roundQ0 q = (f : ℚ) := by
  unfold roundQ0
  rw [roundHalfEven_eq_floor h1 h2]

theorem roundQ0_eq_ceil {q : ℚ} {f : ℤ} (h1 : ⌊q⌋ = f)
    (h2 : 1/2 < q - f) : roundQ0 q = ((f : ℚ) + 1) := by
  unfold roundQ0
  rw [roundHalfEven_eq_ceil h1 h2]
  push_cast
  ring

/-- C1: for every weight, height, age and sex, `calculate_bmr` is the
Mifflin-St Jeor base `10*w + 6.25*h - 5*age` plus 5, rounded to 0 decimals,
when `sex` lowercases to `"male"`, else minus 161 rounded to 0 decimals;
the result always lies in one of exactly these two branches. -/
theorem bmr_mifflin_binary (w h : ℚ) (a : ℤ) (sex : String) :
    calculate_bmr w h a sex =
      (if strLower sex = "male" then roundQ0 ((10 * w + 6.25 * h - 5 * a) + 5)
       else roundQ0 ((10 * w + 6.25 * h - 5 * a) - 161)) ∧
    (calculate_bmr w h a sex = roundQ0 ((10 * w + 6.25 * h - 5 * a) + 5) ∨
     calculate_bmr w h a sex = roundQ0 ((10 * w + 6.25 * h - 5 * a) - 161)) := by
  refine ⟨rfl, ?_⟩
  unfold calculate_bmr
  by_cases hs : strLower sex = "male"
  · rw [if_pos hs]
    exact Or.inl rfl
  · rw [if_neg hs]
    exact Or.inr rfl

-- Evaluation of the two concrete BMR vectors the spec quotes.

theorem bmr_male_70_175_30 : calculate_bmr 70 175 30 "male" = 1649 := by
  have e1 : calculate_bmr 70 175 30 "male" = roundQ0 (1648.75 : ℚ) := by
    unfold calculate_bmr
    rw [if_pos (by decide)]
    congr 1
    push_cast
    norm_num
  rw [e1, roundQ0_eq_ceil (f := 1648) (by rw [Int.floor_eq_iff]; norm_num)
    (by norm_num)]
  norm_num

theorem bmr_female_60_160_25 : calculate_bmr 60 160 25 "female" = 1314 := by
  have e1 : calculate_bmr 60 160 25 "female" = roundQ0 (1314 : ℚ) := by
    unfold calculate_bmr
    rw [if_neg (by decide)]
    congr 1
    push_cast
    norm_num
  rw [e1]
  have : ((1314 : ℤ) : ℚ) = (1314 : ℚ) := by norm_num
  rw [← this, roundQ0_intCast]

/-- C2 (counterexample): the two concrete test vectors quoted by the spec
are both arithmetically wrong for this code: on sex `"male"`, weight 70,
height 175, age 30 the result is not 1673, and on `"female"`, 60, 160, 25
it is not 1364. -/
theorem bmr_spec_vectors_false :
    calculate_bmr 70 175 30 "male" ≠ 1673 ∧
    calculate_bmr 60 160 25 "female" ≠ 1364 := by
  rw [bmr_male_70_175_30, bmr_female_60_160_25]
  norm_num

/-- C2 (amended): `bmr("male", 70, 175, 30) = round(1643.75 + 5) = 1649`
and `bmr("female", 60, 160, 25) = round(1475 - 161) = 1314`. -/
theorem bmr_concrete_vectors :
    calculate_bmr 70 175 30 "male" = 1649 ∧
    calculate_bmr 60 160 25 "female" = 1314 :=
  ⟨bmr_male_70_175_30, bmr_female_60_160_25⟩

/-- C3: for positive height, `calculate_bmi` is weight over squared height
in metres rounded to 2 decimals; for non-positive height it is the
explicit absent value `none`, with no division ever performed. -/
theorem bmi_spec (w h : ℚ) :
    (0 < h → calculate_bmi w h = some (round2 (w / (h / 100) ^ 2))) ∧
    (h ≤ 0 → calculate_bmi w h = none) := by
  constructor
  · intro hpos
    unfold calculate_bmi
    rw [if_neg (by intro hc; nlinarith)]
    congr 2
    ring
  · intro hneg
    unfold calculate_bmi
    rw [if_pos (by linarith)]

theorem bmi_spec_witness :
    calculate_bmi 70 175 = some (round2 (70 / ((175 : ℚ) / 100) ^ 2)) :=
  (bmi_spec 70 175).1 (by norm_num)

/-- C4: for every `bmr` and activity string, `calculate_tdee` multiplies by
the factor from the fixed five-entry table and rounds to 0 decimals, and
every string outside the table silently gets the sedentary factor 1.2. -/
theorem tdee_table (b : ℚ) (al : String) :
    calculate_tdee b al = roundQ0 (b *
      (if al = "sedentary" then 1.2 else if al = "light" then 1.375
       else if al = "moderate" then 1.55 else if al = "active" then 1.725
       else if al = "very_active" then 1.9 else 1.2)) := by
  by_cases h1 : al = "sedentary"
  · subst h1; rfl
  by_cases h2 : al = "light"
  · subst h2; rfl
  by_cases h3 : al = "moderate"
  · subst h3; rfl
  by_cases h4 : al = "active"
  · subst h4; rfl
  by_cases h5 : al = "very_active"
  · subst h5; rfl
  have e1 : ("sedentary" == al) = false :=
    beq_eq_false_iff_ne.mpr (fun h => h1 h.symm)
  have e2 : ("light" == al) = false :=
    beq_eq_false_iff_ne.mpr (fun h => h2 h.symm)
  have e3 : ("moderate" == al) = false :=
    beq_eq_false_iff_ne.mpr (fun h => h3 h.symm)
  have e4 : ("active" == al) = false :=
    beq_eq_false_iff_ne.mpr (fun h => h4 h.symm)
  have e5 : ("very_active" == al) = false :=
    beq_eq_false_iff_ne.mpr (fun h => h5 h.symm)
  unfold calculate_tdee dictGet? ACTIVITY_FACTORS
  simp only [List.find?, e1, e2, e3, e4, e5, if_neg h1, if_neg h2, if_neg h3,
    if_neg h4, if_neg h5]
  rfl

/-- C7: a profile creation whose `user_id` already exists fails with
`Conflict` and leaves both stores exactly as they were, and a snapshot
creation for a nonexistent user fails with `NotFound` and leaves both
stores exactly as they were. -/
theorem failed_creation_preserves_state (db : DB) (u : UserCreate)
    (now : String) (uid : String) (s : SnapshotCreate) (today : Date)
    (nowIso sid : String) :
    (dictContains db.users u.user_id = true →
      create_user db u now = (.error .conflict, db)) ∧
    (dictGet? db.users uid = none →
      create_snapshot db uid s today nowIso sid = (.error .notFound, db)) := by
  constructor
  · intro hc
    unfold create_user
    rw [if_pos hc]
  · intro hn
    unfold create_snapshot
    rw [hn]

/-- Concrete data used by witnesses and counterexamples below. -/
def userA : StoredUser :=
  { name := "A", dob := "1990-05-20", sex := "male", height_cm := some 175,
    weight_kg := 70, activity_level := some "moderate", created_at := "T0" }

def dbA : DB := { users := [("u1", userA)], snaps := [] }

def emptyDb : DB := { users := [], snaps := [] }

def reqB : UserCreate :=
  { name := "B", dob := "1991-01-01", sex := "female", height_cm := 160,
    weight_kg := 60, activity_level := "light", user_id := "u1" }

def plainSnapReq : SnapshotCreate := { weight_kg := 70 }

theorem failed_creation_preserves_state_witness :
    create_user dbA reqB "T1" = (.error .conflict, dbA) ∧
    create_snapshot emptyDb "ghost" plainSnapReq ⟨2025, 6, 15⟩ "NOW" "sid1" =
      (.error .notFound, emptyDb) :=
  ⟨(failed_creation_preserves_state dbA reqB "T1" "ghost" plainSnapReq
      ⟨2025, 6, 15⟩ "NOW" "sid1").1 (by decide),
   (failed_creation_preserves_state emptyDb reqB "T1" "ghost" plainSnapReq
      ⟨2025, 6, 15⟩ "NOW" "sid1").2 rfl⟩

-- Success and inversion lemmas for `create_snapshot`, shared by the
-- claims about field resolution, timestamps and error behaviour.

theorem create_snapshot_ok (db : DB) (uid : String) (s : SnapshotCreate)
    (today : Date) (nowIso sid : String) (user : StoredUser) (age : ℤ)
    (height : ℚ) (hu : dictGet? db.users uid = some user)
    (hage : age_from_dob user.dob today = some age)
    (hh : resolvedHeight? s user = some height) :
    create_snapshot db uid s today nowIso sid =
      (.ok (sid, mkSnap uid s user age height nowIso),
       { db with snaps := dictSet db.snaps sid (mkSnap uid s user age height nowIso) }) := by
  unfold create_snapshot
  rw [hu]
  dsimp only
  rw [hage]
  dsimp only
  rw [hh]

theorem create_snapshot_ok_inv (db : DB) (uid : String) (s : SnapshotCreate)
    (today : Date) (nowIso sid : String) (user : StoredUser)
    (out : String × StoredSnap) (db' : DB)
    (hu : dictGet? db.users uid = some user)
    (hok : create_snapshot db uid s today nowIso sid = (.ok out, db')) :
    ∃ age height, age_from_dob user.dob today = some age ∧
      resolvedHeight? s user = some height ∧
      out = (sid, mkSnap uid s user age height nowIso) ∧
      db' = { db with snaps := dictSet db.snaps sid (mkSnap uid s user age height nowIso) } := by
  unfold create_snapshot at hok
  rw [hu] at hok
  dsimp only at hok
  rcases hage : age_from_dob user.dob today with _ | age
  · rw [hage] at hok
    simp at hok
  · rw [hage] at hok
    dsimp only at hok
    rcases hh : resolvedHeight? s user with _ | height
    · rw [hh] at hok
      simp at hok
    · rw [hh] at hok
      simp only [Prod.mk.injEq, Except.ok.injEq] at hok
      exact ⟨age, height, rfl, rfl, hok.1.symm, hok.2.symm⟩

-- Small unfolding lemmas for the three resolution helpers and `mkSnap`.

theorem resolvedHeight?_of_some {s : SnapshotCreate} {user : StoredUser}
    {h : ℚ} (hs : s.height_cm = some h) : resolvedHeight? s user = some h := by
  unfold resolvedHeight?
  rw [hs]

theorem resolvedHeight?_of_none {s : SnapshotCreate} {user : StoredUser}
    (hs : s.height_cm = none) : resolvedHeight? s user = user.height_cm := by
  unfold resolvedHeight?
  rw [hs]

theorem resolvedActivity_of_some {s : SnapshotCreate} {user : StoredUser}
    {a : String} (hs : s.activity_level = some a) (hne : a ≠ "") :
    resolvedActivity s user = a := by
  unfold resolvedActivity
  rw [hs]
  dsimp only
  rw [if_neg hne]

theorem resolvedActivity_default {s : SnapshotCreate} {user : StoredUser}
    (hs : s.activity_level = none ∨ s.activity_level = some "") :
    resolvedActivity s user = user.activity_level.getD "sedentary" := by
  unfold resolvedActivity
  rcases hs with hs | hs
  · rw [hs]
  · rw [hs]
    dsimp only
    rw [if_pos rfl]

theorem resolvedTs_of_empty {s : SnapshotCreate} {nowIso : String}
    (hs : s.timestamp = some "") : resolvedTs s nowIso = nowIso := by
  unfold resolvedTs
  rw [hs]
  dsimp only
  rw [if_pos rfl]

theorem resolvedTs_of_none {s : SnapshotCreate} {nowIso : String}
    (hs : s.timestamp = none) : resolvedTs s nowIso = nowIso := by
  unfold resolvedTs
  rw [hs]

theorem resolvedTs_of_nonempty {s : SnapshotCreate} {nowIso : String}
    {t : String} (hs : s.timestamp = some t) (hne : t ≠ "") :
    resolvedTs s nowIso = t := by
  unfold resolvedTs
  rw [hs]
  dsimp only
  rw [if_neg hne]

theorem mkSnap_height_cm (uid : String) (s : SnapshotCreate)
    (user : StoredUser) (age : ℤ) (height : ℚ) (nowIso : String) :
    (mkSnap uid s user age height nowIso).height_cm = height := rfl

theorem mkSnap_activity (uid : String) (s : SnapshotCreate)
    (user : StoredUser) (age : ℤ) (height : ℚ) (nowIso : String) :
    (mkSnap uid s user age height nowIso).activity_level =
      resolvedActivity s user := rfl

theorem mkSnap_timestamp (uid : String) (s : SnapshotCreate)
    (user : StoredUser) (age : ℤ) (height : ℚ) (nowIso : String) :
    (mkSnap uid s user age height nowIso).timestamp = resolvedTs s nowIso := rfl

theorem mkSnap_bmi (uid : String) (s : SnapshotCreate)
    (user : StoredUser) (age : ℤ) (height : ℚ) (nowIso : String) :
    (mkSnap uid s user age height nowIso).bmi =
      calculate_bmi s.weight_kg height := rfl

/-- C5: on any successful snapshot creation for an existing user, the
persisted-and-returned height is the request height when present and
non-null, else the profile height, and the persisted-and-returned activity
level is the request activity level when present and non-empty, else the
profile activity level, else `"sedentary"`; the returned record is exactly
what is written into the snapshot store. -/
theorem snapshot_field_resolution (db : DB) (uid : String)
    (s : SnapshotCreate) (today : Date) (nowIso sid : String)
    (user : StoredUser) (out : String × StoredSnap) (db' : DB)
    (hu : dictGet? db.users uid = some user)
    (hok : create_snapshot db uid s today nowIso sid = (.ok out, db')) :
    (∀ h, s.height_cm = some h → out.2.height_cm = h) ∧
    (s.height_cm = none → user.height_cm = some out.2.height_cm) ∧
    (∀ a, s.activity_level = some a → a ≠ "" → out.2.activity_level = a) ∧
    ((s.activity_level = none ∨ s.activity_level = some "") →
      out.2.activity_level = user.activity_level.getD "sedentary") ∧
    db'.snaps = dictSet db.snaps sid out.2 := by
  obtain ⟨age, height, hage, hh, hout, hdb⟩ :=
    create_snapshot_ok_inv db uid s today nowIso sid user out db' hu hok
  subst hout
  subst hdb
  dsimp only
  refine ⟨?_, ?_, ?_, ?_, rfl⟩
  · intro h hsh
    rw [resolvedHeight?_of_some hsh] at hh
    rw [mkSnap_height_cm]
    exact (Option.some.injEq _ _ ▸ hh).symm
  · intro hsn
    rw [resolvedHeight?_of_none hsn] at hh
    rw [mkSnap_height_cm]
    exact hh
  · intro a hsa hne
    rw [mkSnap_activity, resolvedActivity_of_some hsa hne]
  · intro hdef
    rw [mkSnap_activity, resolvedActivity_default hdef]

-- A concrete successful run, reused by several witnesses.

def okSnap : StoredSnap := mkSnap "u1" plainSnapReq userA 35 175 "NOW"

def dbAafter : DB :=
  { users := dbA.users, snaps := dictSet dbA.snaps "sid1" okSnap }

theorem run_plain :
    create_snapshot dbA "u1" plainSnapReq ⟨2025, 6, 15⟩ "NOW" "sid1" =
      (.ok ("sid1", okSnap), dbAafter) := rfl

theorem snapshot_field_resolution_witness :
    plainSnapReq.height_cm = none ∧
    userA.height_cm = some (("sid1", okSnap) : String × StoredSnap).2.height_cm :=
  ⟨rfl, (snapshot_field_resolution dbA "u1" plainSnapReq ⟨2025, 6, 15⟩ "NOW"
    "sid1" userA ("sid1", okSnap) dbAafter rfl run_plain).2.1 rfl⟩

/-- C10: on any successful snapshot creation, a request timestamp that is
absent or equal to the empty string is not stored: the server-assigned
current-UTC ISO timestamp `nowIso` is persisted and returned instead, and
a supplied timestamp is stored verbatim exactly when it is a non-empty
string; the returned record is what is written into the store. -/
theorem timestamp_fallback (db : DB) (uid : String) (s : SnapshotCreate)
    (today : Date) (nowIso sid : String) (user : StoredUser)
    (out : String × StoredSnap) (db' : DB)
    (hu : dictGet? db.users uid = some user)
    (hok : create_snapshot db uid s today nowIso sid = (.ok out, db')) :
    (s.timestamp = some "" → out.2.timestamp = nowIso) ∧
    (s.timestamp = none → out.2.timestamp = nowIso) ∧
    (∀ t, s.timestamp = some t → t ≠ "" → out.2.timestamp = t) ∧
    db'.snaps = dictSet db.snaps sid out.2 := by
  obtain ⟨age, height, hage, hh, hout, hdb⟩ :=
    create_snapshot_ok_inv db uid s today nowIso sid user out db' hu hok
  subst hout
  subst hdb
  dsimp only
  refine ⟨?_, ?_, ?_, rfl⟩
  · intro hs
    rw [mkSnap_timestamp, resolvedTs_of_empty hs]
  · intro hs
    rw [mkSnap_timestamp, resolvedTs_of_none hs]
  · intro t hs hne
    rw [mkSnap_timestamp, resolvedTs_of_nonempty hs hne]

def emptyTsReq : SnapshotCreate := { weight_kg := 70, timestamp := some "" }

def okSnapTs : StoredSnap := mkSnap "u1" emptyTsReq userA 35 175 "NOW"

def dbAafterTs : DB :=
  { users := dbA.users, snaps := dictSet dbA.snaps "sid2" okSnapTs }

theorem run_emptyTs :
    create_snapshot dbA "u1" emptyTsReq ⟨2025, 6, 15⟩ "NOW" "sid2" =
      (.ok ("sid2", okSnapTs), dbAafterTs) := rfl

theorem timestamp_fallback_witness :
    emptyTsReq.timestamp = some "" ∧
    (("sid2", okSnapTs) : String × StoredSnap).2.timestamp = "NOW" :=
  ⟨rfl, (timestamp_fallback dbA "u1" emptyTsReq ⟨2025, 6, 15⟩ "NOW" "sid2"
    userA ("sid2", okSnapTs) dbAafterTs rfl run_emptyTs).1 rfl⟩

-- C6 material: what actually happens on a malformed date of birth and on a
-- non-positive resolved height.

def zeroHReq : SnapshotCreate := { weight_kg := 70, height_cm := some 0 }

def zeroSnap : StoredSnap := mkSnap "u1" zeroHReq userA 35 0 "NOW"

/-- C6 (counterexample): a snapshot request whose resolved height is 0 (so
the BMI ratio is undefined) does NOT surface any error condition: the call
succeeds, and the snapshot is persisted with `bmi` stored as `None`. -/
theorem invalid_input_not_surfaced :
    create_snapshot dbA "u1" zeroHReq ⟨2025, 6, 15⟩ "NOW" "sid1" =
      (.ok ("sid1", zeroSnap),
        { users := dbA.users, snaps := [("sid1", zeroSnap)] }) ∧
    zeroSnap.bmi = none := by
  constructor
  · rfl
  · have e : zeroSnap.bmi = calculate_bmi 70 0 := rfl
    rw [e]
    unfold calculate_bmi
    rw [if_pos (by norm_num)]

/-- C6 (amended): for an existing user, a malformed profile date-of-birth
string aborts snapshot creation with the distinct `valueError` condition
(the uncaught `ValueError` from `strptime`, not an `HTTPException`) and
leaves both stores unchanged; but a non-positive resolved height surfaces
no error at all: creation succeeds and the record is persisted with `bmi`
stored as the undefined marker `None`. -/
theorem snapshot_error_behaviour (db : DB) (uid : String) (s : SnapshotCreate)
    (today : Date) (nowIso sid : String) (user : StoredUser)
    (hu : dictGet? db.users uid = some user) :
    (parseDate user.dob = none →
      create_snapshot db uid s today nowIso sid = (.error .valueError, db)) ∧
    (∀ age height, age_from_dob user.dob today = some age →
      resolvedHeight? s user = some height → height ≤ 0 →
      create_snapshot db uid s today nowIso sid =
        (.ok (sid, mkSnap uid s user age height nowIso),
         { db with snaps := dictSet db.snaps sid (mkSnap uid s user age height nowIso) }) ∧
      (mkSnap uid s user age height nowIso).bmi = none) := by
  constructor
  · intro hp
    unfold create_snapshot
    rw [hu]
    dsimp only
    have hage : age_from_dob user.dob today = none := by
      unfold age_from_dob
      rw [hp]
      rfl
    rw [hage]
  · intro age height hage hh hle
    refine ⟨create_snapshot_ok db uid s today nowIso sid user age height hu
      hage hh, ?_⟩
    rw [mkSnap_bmi]
    unfold calculate_bmi
    rw [if_pos (by linarith)]

def userBad : StoredUser :=
  { name := "C", dob := "not-a-date", sex := "male", height_cm := some 175,
    weight_kg := 70, activity_level := none, created_at := "T0" }

def dbBad : DB := { users := [("u2", userBad)], snaps := [] }

theorem snapshot_error_behaviour_witness :
    create_snapshot dbBad "u2" plainSnapReq ⟨2025, 6, 15⟩ "NOW" "sid1" =
      (.error .valueError, dbBad) ∧
    (mkSnap "u1" zeroHReq userA 35 0 "NOW").bmi = none :=
  ⟨(snapshot_error_behaviour dbBad "u2" plainSnapReq ⟨2025, 6, 15⟩ "NOW"
      "sid1" userBad rfl).1 (by decide),
   ((snapshot_error_behaviour dbA "u1" zeroHReq ⟨2025, 6, 15⟩ "NOW" "sid1"
      userA rfl).2 35 0 (by decide) rfl (by norm_num)).2⟩

-- Transitivity and totality of the timestamp comparison used by the sort.

theorem tsLe_trans : ∀ a b c : String × StoredSnap,
    tsLe a b = true → tsLe b c = true → tsLe a c = true := by
  intro a b c hab hbc
  simp only [tsLe, decide_eq_true_eq] at hab hbc ⊢
  exact le_trans hab hbc

theorem tsLe_total : ∀ a b : String × StoredSnap,
    (tsLe a b || tsLe b a) = true := by
  intro a b
  simp only [tsLe, Bool.or_eq_true, decide_eq_true_eq]
  exact le_total _ _

/-- C8: for an existing user, `list_snapshots` returns exactly the stored
snapshots whose `user_id` matches (a permutation of the filtered store),
sorted ascending by timestamp under the lexicographic string order, and
the empty list (not an error) when the user has no snapshots; it fails
with `NotFound` exactly when the user does not exist. -/
theorem list_snapshots_spec (db : DB) (uid : String) :
    (dictContains db.users uid = false →
      list_snapshots db uid = .error .notFound) ∧
    (dictContains db.users uid = true →
      ∃ l, list_snapshots db uid = .ok l ∧
        l.Perm (db.snaps.filter (fun p => p.2.user_id == uid)) ∧
        l.Pairwise (fun a b => a.2.timestamp ≤ b.2.timestamp) ∧
        (∀ p ∈ l, p.2.user_id = uid) ∧
        ((∀ p ∈ db.snaps, p.2.user_id ≠ uid) → l = [])) := by
  constructor
  · intro hn
    unfold list_snapshots
    rw [hn]
    rfl
  · intro hy
    refine ⟨(db.snaps.filter (fun p => p.2.user_id == uid)).mergeSort tsLe,
      ?_, List.mergeSort_perm _ _, ?_, ?_, ?_⟩
    · unfold list_snapshots
      rw [hy]
      rfl
    · exact (List.sorted_mergeSort tsLe_trans tsLe_total
        (db.snaps.filter (fun p => p.2.user_id == uid))).imp
        (fun h => by simpa [tsLe] using h)
    · intro p hp
      have hmem := (List.mergeSort_perm
        (db.snaps.filter (fun p => p.2.user_id == uid)) tsLe).mem_iff.mp hp
      have := (List.mem_filter.mp hmem).2
      simpa using this
    · intro hnone
      have hfil : db.snaps.filter (fun p => p.2.user_id == uid) = [] := by
        rw [List.filter_eq_nil_iff]
        intro p hp
        simpa using hnone p hp
      rw [hfil, List.mergeSort_nil]

theorem list_snapshots_spec_witness :
    list_snapshots emptyDb "ghost" = .error .notFound ∧
    ∃ l, list_snapshots dbA "u1" = .ok l ∧
      l.Perm (dbA.snaps.filter (fun p => p.2.user_id == "u1")) ∧
      l.Pairwise (fun a b => a.2.timestamp ≤ b.2.timestamp) ∧
      (∀ p ∈ l, p.2.user_id = "u1") ∧
      ((∀ p ∈ dbA.snaps, p.2.user_id ≠ "u1") → l = []) :=
  ⟨(list_snapshots_spec emptyDb "ghost").1 rfl,
   (list_snapshots_spec dbA "u1").2 rfl⟩
